import Mathlib

/-!
Verification development for the `test-outlook-webhook` repository.

The core under study is `test_imaptools.py`: an IMAP IDLE client with
reconnection support (class `IMAPIdleClient`), plus the FastAPI webhook
router `app/routers/outlook_webhook.py`.  The Python code is embedded
shallowly below: pure fragments become Lean functions, the stateful
loops become trace-producing functions over explicit event feeds, and
Python exceptions become explicit outcome constructors.
-/

namespace ImapWatch

/-! ## Environment and client construction (`IMAPIdleClient.__init__`) -/

/-- A process environment: maps a variable name to its value, `none` when
the variable is unset.  `os.getenv(k, d)` is `(env k).getD d`. -/
def EnvMap : Type := String → Option String

/-- The `ssl.VerifyMode` values relevant here. -/
inductive VerifyMode
  | certNone
  | certOptional
  | certRequired
deriving DecidableEq

/-- The two fields of `ssl.SSLContext` that the client mutates. -/
structure SSLContext where
  check_hostname : Bool
  verify_mode : VerifyMode
deriving DecidableEq

/-- Result of `ssl.create_default_context()`: hostname checking on and
certificate verification required. -/
def create_default_context : SSLContext :=
  { check_hostname := true, verify_mode := VerifyMode.certRequired }

/-- Configuration state an `IMAPIdleClient` holds after `__init__`. -/
structure ClientConfig where
  imap_server : String
  username : Option String
  password : Option String
  folder : String
  ssl_context : SSLContext
deriving DecidableEq

/-- Python truthiness of an optional string: `None` and the empty string
are falsy (this is what `all([self.username, self.password])` tests). -/
def truthy : Option String → Bool
  | none => false
  | some s => s != ""

/-- Shallow embedding of `IMAPIdleClient.__init__`: reads the environment,
builds the default SSL context and then unconditionally sets
`check_hostname = False` and `verify_mode = ssl.CERT_NONE`, and raises
`ValueError` (here `Except.error`) when username or password is missing
or empty. -/
def clientInit (env : EnvMap) : Except String ClientConfig :=
  let ctx0 := create_default_context
  let ctx := { ctx0 with check_hostname := false, verify_mode := VerifyMode.certNone }
  let username := env "EMAIL_USERNAME"
  let password := env "EMAIL_PASSWORD"
  if truthy username && truthy password then
    Except.ok
      { imap_server := (env "IMAP_SERVER").getD "imap.tma.com.vn"
        username := username
        password := password
        folder := (env "EMAIL_FOLDER").getD "INBOX"
        ssl_context := ctx }
  else
    Except.error "Please set EMAIL_USERNAME and EMAIL_PASSWORD in .env file"

/-- A concrete environment providing only the two credentials, used to
evaluate `clientInit` at a closed input. -/
def envEx : EnvMap := fun k =>
  if k = "EMAIL_USERNAME" then some "user"
  else if k = "EMAIL_PASSWORD" then some "pw"
  else none

/-- The configuration `clientInit` produces on `envEx`. -/
def cfgEx : ClientConfig :=
  { imap_server := "imap.tma.com.vn"
    username := some "user"
    password := some "pw"
    folder := "INBOX"
    ssl_context := { check_hostname := false, verify_mode := VerifyMode.certNone } }

/-! ## Message records and body selection (`IMAPIdleClient.process_message`) -/

/-- The fields of an `imap_tools.MailMessage` that `process_message`
reads.  Text and HTML bodies are modelled as `List Char` (a Python
string is a sequence of characters); `imap_tools` yields `""` for an
absent part, so absence coincides with emptiness. -/
structure MailMessage where
  from_ : String
  to_ : List String
  date : String
  subject : String
  text : List Char
  html : List Char
  attachments : List (String × Nat)
deriving DecidableEq

/-- Python `str.strip()`: remove leading and trailing whitespace. -/
def pyStrip (s : List Char) : List Char :=
  ((s.dropWhile Char.isWhitespace).reverse.dropWhile Char.isWhitespace).reverse

/-- Python `msg.html[:500] + (msg.html[500:] and ...)` from
`process_message`: the first 500 characters of the HTML, followed by an
ellipsis marker exactly when characters were cut off (in Python,
`s and t` is `s` when `s` is empty and `t` otherwise). -/
def htmlExcerpt (h : List Char) : List Char :=
  h.take 500 ++ (if h.drop 500 = [] then [] else ['.', '.', '.'])

/-- The body `process_message` logs for a message: the stripped plain
text when `msg.text` is truthy (nonempty); otherwise the HTML excerpt
when `msg.html` is truthy; otherwise no body at all. -/
def messageBody (msg : MailMessage) : Option (List Char) :=
  if msg.text ≠ [] then some (pyStrip msg.text)
  else if msg.html ≠ [] then some (htmlExcerpt msg.html)
  else none

/-- A message whose only content is 501 characters of HTML. -/
def cex8 : MailMessage :=
  { from_ := "a@b.c"
    to_ := ["d@e.f"]
    date := "2024-01-01"
    subject := "s"
    text := []
    html := List.replicate 501 'a'
    attachments := [] }

/-- The body `process_message` produces for `cex8`. -/
def cex8Body : List Char := List.replicate 500 'a' ++ ['.', '.', '.']

/-- A message with a plain-text part, for evaluating the body policy. -/
def msgTextEx : MailMessage :=
  { from_ := "a@b.c"
    to_ := []
    date := ""
    subject := "hello"
    text := [' ', 'h', 'i', '\n']
    html := ['<', 'p', '>']
    attachments := [] }

/-! ## Drain cycle (`IMAPIdleClient.idle_callback` and `process_message`)

`idle_callback` runs `for msg in mailbox.fetch(A(seen=False), mark_seen=True):
self.process_message(msg)`.  In `imap_tools`, `MailBox.fetch` is a lazy
generator: it first issues `SEARCH UNSEEN` (the server returns matching
ids in ascending order), then fetches the messages one by one as the
loop pulls them.  With `mark_seen=True` the fetch uses `BODY[]` rather
than `BODY.PEEK[]`, so the server sets the `\Seen` flag on a message at
the moment it is fetched — before it is handed to `process_message`.
`process_message` (the sink) wraps its whole body in `try/except
Exception`, so a failure while handling one message is logged and the
loop proceeds to the next message. -/

/-- One unseen message as seen by a drain cycle: its server-side id and
whether the sink (the body of `process_message`) succeeds on it. -/
structure UnseenMsg where
  uid : Nat
  sinkOk : Bool
deriving DecidableEq

/-- Observable events of the embedded client, in the order they occur. -/
inductive Ev
  | connectAttempt
  | loginOk
  | cooldown (secs : Nat)
  | sessionClose
  | idleTimeout (waited : Nat)
  | shortSleep (secs : Nat)
  | fetchMark (uid : Nat)
  | sinkCall (uid : Nat)
  | sinkRet (uid : Nat) (ok : Bool)
deriving DecidableEq

/-- Event trace of one drain cycle over the given unseen messages, in
server order: each message is fetched (and thereby marked seen), then
the sink is called on it, then the sink returns (`process_message`
catches any exception, so the loop always reaches the next message). -/
def drainTrace : List UnseenMsg → List Ev
  | [] => []
  | m :: rest =>
      Ev.fetchMark m.uid :: Ev.sinkCall m.uid :: Ev.sinkRet m.uid m.sinkOk :: drainTrace rest

/-- The ids on which the sink was invoked, in trace order. -/
def sinkCalls (t : List Ev) : List Nat :=
  t.filterMap fun e => match e with | Ev.sinkCall u => some u | _ => none

/-- The ids marked seen (fetched with `BODY[]`), in trace order. -/
def markedUids (t : List Ev) : List Nat :=
  t.filterMap fun e => match e with | Ev.fetchMark u => some u | _ => none

/-- Checks that every mark-seen event occurs only after the sink call
for that message has already returned: scans the trace, accumulating the
ids whose sink call has returned, and demands that each `fetchMark`
concern an already-returned id. -/
def marksOnlyAfterSink : List Ev → List Nat → Bool
  | [], _ => true
  | Ev.sinkRet u _ :: rest, acc => marksOnlyAfterSink rest (u :: acc)
  | Ev.fetchMark u :: rest, acc => acc.contains u && marksOnlyAfterSink rest acc
  | _ :: rest, acc => marksOnlyAfterSink rest acc

/-- Checks that every sink call is preceded by the mark-seen (fetch) of
the same message: scans the trace, accumulating fetched ids. -/
def sinkOnlyAfterMark : List Ev → List Nat → Bool
  | [], _ => true
  | Ev.fetchMark u :: rest, acc => sinkOnlyAfterMark rest (u :: acc)
  | Ev.sinkCall u :: rest, acc => acc.contains u && sinkOnlyAfterMark rest acc
  | _ :: rest, acc => sinkOnlyAfterMark rest acc

/-- A one-message drain input, for closed evaluation. -/
def oneMsg : List UnseenMsg := [{ uid := 1, sinkOk := true }]

/-! ## The IDLE loop (`IMAPIdleClient._run_idle_loop`)

The Python method is

    while True:
      try:
        responses = mailbox.idle.wait(timeout=45)
        if responses: self.idle_callback(mailbox)
        else: log "No new emails in the last 45 seconds"
      except (ConnectionError, imaplib.IMAP4.abort): raise ConnectionError(...)
      except Exception: time.sleep(1)
    # outer handlers:
    except KeyboardInterrupt: return
    except Exception: raise

modelled over an externally supplied feed of per-iteration outcomes. -/

/-- The timeout passed to `mailbox.idle.wait` on every iteration. -/
def idleWaitTimeoutSeconds : Nat := 45

/-- What one iteration of the IDLE loop observes. -/
inductive IdleEvent
  | timeout
  | activity (msgs : List UnseenMsg)
  | connErr
  | otherErr
  | keyboardInterrupt

/-- How a call to `_run_idle_loop` relinquishes control. -/
inductive LoopExit
    /-- `KeyboardInterrupt` was caught; the method returns normally. -/
  | interrupted
    /-- a `ConnectionError` is raised out of the method. -/
  | connLost
    /-- the event feed ended with the method still inside `while True`:
    the loop has no exit path of its own. -/
  | exhausted
deriving DecidableEq

/-- Trace and exit mode of one `_run_idle_loop` call over an event feed.
A `timeout` iteration logs and loops; an `activity` iteration drains; a
connection error raises out; any other exception sleeps one second and
loops; `KeyboardInterrupt` returns. -/
def runIdleLoop : List IdleEvent → List Ev × LoopExit
  | [] => ([], LoopExit.exhausted)
  | IdleEvent.timeout :: rest =>
      let r := runIdleLoop rest
      (Ev.idleTimeout idleWaitTimeoutSeconds :: r.1, r.2)
  | IdleEvent.activity msgs :: rest =>
      let r := runIdleLoop rest
      (drainTrace msgs ++ r.1, r.2)
  | IdleEvent.connErr :: _ => ([], LoopExit.connLost)
  | IdleEvent.otherErr :: rest =>
      let r := runIdleLoop rest
      (Ev.shortSleep 1 :: r.1, r.2)
  | IdleEvent.keyboardInterrupt :: _ => ([], LoopExit.interrupted)

/-- Events that neither raise out of `_run_idle_loop` nor make it
return: everything except a connection failure and a keyboard
interrupt. -/
def keepsLooping : IdleEvent → Bool
  | IdleEvent.connErr => false
  | IdleEvent.keyboardInterrupt => false
  | _ => true

/-- Whether an idle event is a plain timeout. -/
def isTimeoutEv : IdleEvent → Bool
  | IdleEvent.timeout => true
  | _ => false

/-- Seconds that elapse inside the session for one idle event: a timed-out
wait blocks the full 45 s; an unexpected error costs the 1 s sleep;
activity is counted as instantaneous (a lower bound). -/
def idleEventSeconds : IdleEvent → Nat
  | IdleEvent.timeout => idleWaitTimeoutSeconds
  | IdleEvent.otherErr => 1
  | _ => 0

/-- Total elapsed seconds of an event feed. -/
def elapsedSeconds (evs : List IdleEvent) : Nat :=
  (evs.map idleEventSeconds).sum

/-- The renewal threshold of the supervisor loop in `run`:
`while connection_live_time < 29 * 60`. -/
def renewalThresholdSeconds : Nat := 29 * 60

/-- Thirty-nine consecutive timed-out waits: 1755 s of failure-free
session time, past the 29-minute threshold. -/
def longQuietFeed : List IdleEvent := List.replicate 39 IdleEvent.timeout

/-! ## The supervisor loop (`IMAPIdleClient.run`)

`run` loops `while not done`, each iteration opening a `with MailBox`
session.  A `MailboxLoginError`/`MailboxLogoutError` raised while
establishing the session is caught inside the `with` and answered by
`time.sleep(60)`; the `with` block then closes the connection and the
outer loop retries.  An exception escaping the `with` block is caught by
the network-error clause or the generic `except Exception` clause, both
of which sleep 60 s and retry.  An exception raised by `_run_idle_loop`
inside the inner loop hits `except Exception: break`, which leaves the
`with` block (closing the session) and reconnects with no sleep. -/

/-- Outcome of one connect attempt of the supervisor loop. -/
inductive Attempt
    /-- login raises `MailboxLoginError` during `_handle_initial_connection`. -/
  | loginFail
    /-- a network-level error escapes the `with` block (teardown during
    unwinding is elided from the trace). -/
  | netFail
    /-- the session is established; the inner loop then consumes the
    given idle-event feed. -/
  | ok (evs : List IdleEvent)

/-- Event trace of `run` over a list of connect-attempt outcomes.  For a
successful attempt the session trace is the IDLE-loop trace; the session
is closed and the loop reconnects (with no cooldown) only when the IDLE
loop raised a connection error, since the loop has no other way to hand
control back (see `LoopExit.exhausted`). -/
def runTrace : List Attempt → List Ev
  | [] => []
  | Attempt.loginFail :: rest =>
      Ev.connectAttempt :: Ev.cooldown 60 :: Ev.sessionClose :: runTrace rest
  | Attempt.netFail :: rest =>
      Ev.connectAttempt :: Ev.cooldown 60 :: runTrace rest
  | Attempt.ok evs :: rest =>
      Ev.connectAttempt :: Ev.loginOk ::
        ((runIdleLoop evs).1 ++
          (if (runIdleLoop evs).2 = LoopExit.connLost then
            Ev.sessionClose :: runTrace rest
          else []))

/-- Whether an event is a connect attempt. -/
def isConnect : Ev → Bool
  | Ev.connectAttempt => true
  | _ => false

/-- The trace segment strictly between the first and the second connect
attempt of a trace. -/
def betweenConnects (t : List Ev) : List Ev :=
  (((t.dropWhile fun e => !isConnect e).drop 1).takeWhile fun e => !isConnect e)

/-- The durations of the cooldown sleeps occurring in a trace. -/
def cooldownsIn (t : List Ev) : List Nat :=
  t.filterMap fun e => match e with | Ev.cooldown n => some n | _ => none

/-! ## Failure classification in `run`

Exception classes that can surface to the supervisor (Python exceptions
deriving from `Exception`; `KeyboardInterrupt` is cancellation, not a
failure, and is modelled separately). -/

/-- Kinds of exception reaching the supervisor. `other` stands for any
exception class not named in a handler of `run`. -/
inductive ExcKind
  | timeoutError
  | connectionError
  | imap4Abort
  | socketHerror
  | socketGaierror
  | socketTimeout
  | mailboxLoginError
  | mailboxLogoutError
  | other (clsName : String)
deriving DecidableEq

/-- Membership in the tuple of the network-error clause of `run`:
`(TimeoutError, ConnectionError, imaplib.IMAP4.abort, socket.herror,
socket.gaierror, socket.timeout)`. -/
def isRecognizedTransient : ExcKind → Bool
  | ExcKind.timeoutError => true
  | ExcKind.connectionError => true
  | ExcKind.imap4Abort => true
  | ExcKind.socketHerror => true
  | ExcKind.socketGaierror => true
  | ExcKind.socketTimeout => true
  | _ => false

/-- Membership in the tuple of the login-error clause:
`(MailboxLoginError, MailboxLogoutError)`. -/
def isAuthKind : ExcKind → Bool
  | ExcKind.mailboxLoginError => true
  | ExcKind.mailboxLogoutError => true
  | _ => false

/-- The supervisor reactions a handler can produce. -/
inductive Dispatch
    /-- sleep the given number of seconds, then retry the connect loop. -/
  | cooldownRetry (secs : Nat)
    /-- leave the inner loop, close the session, reconnect at once. -/
  | immediateReconnect
    /-- exit the supervisor loop. -/
  | terminate
deriving DecidableEq

/-- The handler chain of `run` for an exception surfacing outside the
inner loop, in source order: the login-error clause, then the
network-error clause, then `except Exception` — each sleeps 60 s and
lets the outer `while` retry. -/
def runExceptClauses (k : ExcKind) : Dispatch :=
  if isAuthKind k then Dispatch.cooldownRetry 60
  else if isRecognizedTransient k then Dispatch.cooldownRetry 60
  else Dispatch.cooldownRetry 60

/-- The handler wrapped around `self._run_idle_loop(mailbox)` inside the
inner loop: `except Exception: break` — every exception, of any kind,
exits to the reconnection path. -/
def innerLoopDispatch (_k : ExcKind) : Dispatch :=
  Dispatch.immediateReconnect

/-! ## Process exit (`main` and the `__main__` guard)

`main` builds the client (`IMAPIdleClient()`, which can raise the
configuration `ValueError`) and calls `run`.  `run` catches every
`Exception` internally, so the only exceptions escaping `client.run()`
are `KeyboardInterrupt` (not an `Exception`); `main` catches it, logs,
and falls through to `return 0`.  An `Exception` (the constructor
`ValueError`) is answered with `return 1`.  The `__main__` guard passes
the return value to `sys.exit`. -/

/-- How `client.run()` hands control back to `main`. -/
inductive RunEnd
    /-- `KeyboardInterrupt` propagated out of `run`. -/
  | cancelled
    /-- `run` returned normally. -/
  | finished

/-- The process exit code `sys.exit(main())` produces, as a function of
the environment (which decides whether `IMAPIdleClient.__init__`
raises) and of how `run` ended. -/
def mainExit (env : EnvMap) (r : RunEnd) : Nat :=
  match clientInit env with
  | Except.error _ => 1
  | Except.ok _ =>
      match r with
      | RunEnd.cancelled => 0
      | RunEnd.finished => 0

end ImapWatch

namespace OutlookHook

/-! ## The webhook endpoint (`app/routers/outlook_webhook.py`)

`outlook_webhook` first checks `"validationToken" in request.query_params`
and, when present, returns `PlainTextResponse(token, status_code=200)`
without ever touching the request body; otherwise it awaits
`request.json()` and returns the dict `{"status": "received"}`. -/

/-- A JSON value, the result of parsing a request body. -/
inductive JsonVal
  | str (s : String)
  | num (n : Int)
  | boolean (b : Bool)
  | null
  | arr (xs : List JsonVal)
  | obj (fields : List (String × JsonVal))

/-- An inbound POST request: its query parameters as a key-value list
and the parse result of its body (`Except.error` when the body is not
valid JSON, in which case `request.json()` raises). -/
structure WebRequest where
  query_params : List (String × String)
  jsonBody : Except Unit JsonVal

/-- Lookup in Starlette query parameters: `QueryParams` maps each key to
its last occurrence in the query string. -/
def queryGet (qs : List (String × String)) (k : String) : Option String :=
  (qs.reverse.find? fun p => p.1 == k).map Prod.snd

/-- The responses the handler can produce. -/
inductive WebResponse
    /-- `PlainTextResponse(content, status_code)`. -/
  | plainText (content : String) (status : Nat)
    /-- a dict return value, serialized as a JSON body. -/
  | jsonBody (j : JsonVal)
    /-- `request.json()` raised on an unparseable body. -/
  | bodyError

/-- Result of one handler invocation: the response and whether the
request body was read. -/
structure HandlerStep where
  response : WebResponse
  bodyRead : Bool

/-- Shallow embedding of the `outlook_webhook` endpoint. -/
def outlook_webhook (req : WebRequest) : HandlerStep :=
  match queryGet req.query_params "validationToken" with
  | some tok => { response := WebResponse.plainText tok 200, bodyRead := false }
  | none =>
      match req.jsonBody with
      | Except.ok _ =>
          { response := WebResponse.jsonBody (JsonVal.obj [("status", JsonVal.str "received")])
            bodyRead := true }
      | Except.error _ => { response := WebResponse.bodyError, bodyRead := true }

/-- A validation request from Microsoft Graph: the token in the query
string and an empty body. -/
def reqTok : WebRequest :=
  { query_params := [("validationToken", "abc123")]
    jsonBody := Except.error () }

/-- A notification request: no validation token, a JSON body. -/
def reqNotif : WebRequest :=
  { query_params := []
    jsonBody := Except.ok (JsonVal.obj [("value", JsonVal.arr [])]) }

end OutlookHook

namespace ImapWatch

/-! ## Helper lemmas -/

/-- Every message of a drain cycle receives a sink call, in list order. -/
theorem sinkCalls_drainTrace (l : List UnseenMsg) :
    sinkCalls (drainTrace l) = l.map UnseenMsg.uid := by
  induction l with
  | nil => rfl
  | cons m rest ih => simp [drainTrace, sinkCalls, List.filterMap_cons] at ih ⊢; exact ih

/-- Every message of a drain cycle is fetched (hence marked seen), in
list order. -/
theorem markedUids_drainTrace (l : List UnseenMsg) :
    markedUids (drainTrace l) = l.map UnseenMsg.uid := by
  induction l with
  | nil => rfl
  | cons m rest ih => simp [drainTrace, markedUids, List.filterMap_cons] at ih ⊢; exact ih

/-- A drain over a concatenation is the concatenation of the drains. -/
theorem drainTrace_append (a b : List UnseenMsg) :
    drainTrace (a ++ b) = drainTrace a ++ drainTrace b := by
  induction a with
  | nil => rfl
  | cons m rest ih => simp [drainTrace, ih]

/-- In every drain trace, each sink call is preceded by the fetch-mark
of the same message (for any initial accumulator). -/
theorem sinkOnlyAfterMark_drainTrace (l : List UnseenMsg) (acc : List Nat) :
    sinkOnlyAfterMark (drainTrace l) acc = true := by
  induction l generalizing acc with
  | nil => rfl
  | cons m rest ih =>
      simp [drainTrace, sinkOnlyAfterMark]
      exact ih _

/-- `_run_idle_loop` is still inside its `while True` after consuming
any feed free of connection failures and keyboard interrupts: the loop
has no other exit path. -/
theorem runIdleLoop_keepsLooping (evs : List IdleEvent)
    (h : evs.all keepsLooping = true) :
    (runIdleLoop evs).2 = LoopExit.exhausted := by
  induction evs with
  | nil => rfl
  | cons e rest ih =>
      rw [List.all_cons, Bool.and_eq_true] at h
      cases e with
      | timeout => simpa [runIdleLoop] using ih h.2
      | activity msgs => simpa [runIdleLoop] using ih h.2
      | connErr => simp [keepsLooping] at h
      | otherErr => simpa [runIdleLoop] using ih h.2
      | keyboardInterrupt => simp [keepsLooping] at h

/-- Over a feed of timed-out waits only, the IDLE loop produces exactly
one 45-second-bounded timeout event per iteration, no sink calls, no
fetches, and is still looping at the end of the feed. -/
theorem runIdleLoop_all_timeouts (evs : List IdleEvent)
    (h : evs.all isTimeoutEv = true) :
    (runIdleLoop evs).1 = List.replicate evs.length (Ev.idleTimeout idleWaitTimeoutSeconds) ∧
    sinkCalls (runIdleLoop evs).1 = [] ∧
    markedUids (runIdleLoop evs).1 = [] ∧
    (runIdleLoop evs).2 = LoopExit.exhausted := by
  induction evs with
  | nil => exact ⟨rfl, rfl, rfl, rfl⟩
  | cons e rest ih =>
      rw [List.all_cons, Bool.and_eq_true] at h
      cases e with
      | timeout =>
          obtain ⟨h1, h2, h3, h4⟩ := ih h.2
          refine ⟨?_, ?_, ?_, ?_⟩ <;>
            simp [runIdleLoop, sinkCalls, markedUids, List.filterMap_cons,
              List.replicate_succ, h1, h4] at h2 h3 ⊢
      | activity msgs => simp [isTimeoutEv] at h
      | connErr => simp [isTimeoutEv] at h
      | otherErr => simp [isTimeoutEv] at h
      | keyboardInterrupt => simp [isTimeoutEv] at h

/-- All three handler clauses of `run` answer with the same 60-second
cooldown and retry. -/
theorem runExceptClauses_const (k : ExcKind) :
    runExceptClauses k = Dispatch.cooldownRetry 60 := by
  unfold runExceptClauses
  split
  · rfl
  · split <;> rfl

/-- The HTML excerpt of a string that already fits in 500 characters is
the string itself. -/
theorem htmlExcerpt_of_short (h : List Char) (hl : h.length ≤ 500) :
    htmlExcerpt h = h := by
  unfold htmlExcerpt
  rw [if_pos (List.drop_eq_nil_of_le hl), List.append_nil, List.take_of_length_le hl]

/-- The first 500 characters of the HTML excerpt are the first 500
characters of the HTML. -/
theorem htmlExcerpt_take (h : List Char) :
    (htmlExcerpt h).take 500 = h.take 500 := by
  by_cases hl : h.length ≤ 500
  · rw [htmlExcerpt_of_short h hl]
  · unfold htmlExcerpt
    rw [if_neg]
    · rw [List.take_append_of_le_length, List.take_take]
      · simp
      · rw [List.length_take]
        omega
    · rw [List.drop_eq_nil_iff]
      omega

/-- The HTML excerpt never exceeds 503 characters (500 content
characters plus the three-character ellipsis marker). -/
theorem htmlExcerpt_length (h : List Char) :
    (htmlExcerpt h).length ≤ 503 := by
  unfold htmlExcerpt
  split <;> simp [List.length_take]

/-! ## Claims -/

/-- C1: the spec claims that in a failure-free session the supervisor
inner loop regains control after each idle/fetch cycle and proactively
renews the session once its live duration exceeds the 29-minute
threshold.  The code contradicts this (and its own comment `Reconnect
every 29 minutes`): `_run_idle_loop` wraps the idle wait in an unbounded
`while True` whose only exits are a raised connection error and
`KeyboardInterrupt`, so on a failure-free feed — however long, in
particular past the threshold — control never returns to the renewal
check in `run` and no proactive renewal happens. -/
theorem C1_no_failure_session_never_reaches_renewal_check (evs : List IdleEvent)
    (h : evs.all keepsLooping = true) :
    (runIdleLoop evs).2 = LoopExit.exhausted ∧ renewalThresholdSeconds = 1740 :=
  ⟨runIdleLoop_keepsLooping evs h, rfl⟩

/-- Witness for C1: thirty-nine consecutive timed-out idle waits are
failure-free, last 1755 s — beyond the 1740 s renewal threshold — and
still leave `_run_idle_loop` inside its loop. -/
theorem C1_witness :
    longQuietFeed.all keepsLooping = true ∧
    elapsedSeconds longQuietFeed = 1755 ∧
    renewalThresholdSeconds < elapsedSeconds longQuietFeed ∧
    (runIdleLoop longQuietFeed).2 = LoopExit.exhausted :=
  ⟨by decide, by decide, by decide,
    (C1_no_failure_session_never_reaches_renewal_check longQuietFeed (by decide)).1⟩

/-- C2 counterexample: in a drain over a single unseen message the
fetch-mark event precedes the sink-return event of that message, so the
claim that each message is marked seen only after its sink call has
returned is false (with `mark_seen=True` the message is marked at fetch
time). -/
theorem C2_counterexample :
    drainTrace oneMsg = [Ev.fetchMark 1, Ev.sinkCall 1, Ev.sinkRet 1 true] ∧
    marksOnlyAfterSink (drainTrace oneMsg) [] = false :=
  ⟨rfl, by decide⟩

/-- C2 (amended): a drain cycle delivers the records to the sink in
ascending arrival order, and each message is marked seen at fetch time,
before its sink call — not after the sink call returns. -/
theorem C2_delivery_order_and_mark_at_fetch (msgs : List UnseenMsg)
    (h : List.Chain' (fun a b => a < b) (msgs.map UnseenMsg.uid)) :
    sinkCalls (drainTrace msgs) = msgs.map UnseenMsg.uid ∧
    List.Chain' (fun a b => a < b) (sinkCalls (drainTrace msgs)) ∧
    markedUids (drainTrace msgs) = msgs.map UnseenMsg.uid ∧
    sinkOnlyAfterMark (drainTrace msgs) [] = true := by
  refine ⟨sinkCalls_drainTrace msgs, ?_, markedUids_drainTrace msgs,
    sinkOnlyAfterMark_drainTrace msgs []⟩
  rw [sinkCalls_drainTrace]
  exact h

/-- Witness for C2: a three-message drain with ascending ids delivers
ids 1, 2, 3 in order, each sink call preceded by its fetch-mark. -/
theorem C2_witness :
    sinkCalls (drainTrace [⟨1, true⟩, ⟨2, false⟩, ⟨3, true⟩]) = [1, 2, 3] ∧
    sinkOnlyAfterMark (drainTrace [⟨1, true⟩, ⟨2, false⟩, ⟨3, true⟩]) [] = true := by
  have h := C2_delivery_order_and_mark_at_fetch [⟨1, true⟩, ⟨2, false⟩, ⟨3, true⟩]
    (by norm_num [List.chain'_cons])
  exact ⟨h.1, h.2.2.2⟩

/-- C3 counterexample: constructing the client from an environment that
supplies only the credentials — the default configuration — yields an
SSL context with hostname checking off and certificate verification
disabled, so insecure mode is the default, not an opt-in. -/
theorem C3_counterexample :
    clientInit envEx = Except.ok cfgEx ∧
    cfgEx.ssl_context.check_hostname = false ∧
    cfgEx.ssl_context.verify_mode = VerifyMode.certNone :=
  ⟨by rfl, rfl, rfl⟩

/-- C3 (amended): every successfully constructed client has TLS
certificate verification and hostname checking disabled; the code
offers no configuration path that keeps the validating defaults of
`ssl.create_default_context`. -/
theorem C3_tls_validation_always_disabled (env : EnvMap) (cfg : ClientConfig)
    (h : clientInit env = Except.ok cfg) :
    cfg.ssl_context.check_hostname = false ∧
    cfg.ssl_context.verify_mode = VerifyMode.certNone := by
  simp only [clientInit] at h
  split at h
  · injection h with h2
    subst h2
    exact ⟨rfl, rfl⟩
  · exact Except.noConfusion h

/-- Witness for C3: the concrete environment `envEx` produces `cfgEx`,
whose SSL context is insecure. -/
theorem C3_witness :
    cfgEx.ssl_context.check_hostname = false ∧
    cfgEx.ssl_context.verify_mode = VerifyMode.certNone :=
  C3_tls_validation_always_disabled envEx cfgEx (by rfl)

/-- C4: a sink failure on one message of a drain does not abort the
drain: every message of the cycle, including all messages after the
failing one, still receives its sink call, because `process_message`
catches the exception and the fetch loop proceeds. -/
theorem C4_sink_failure_does_not_abort_drain (pre : List UnseenMsg) (m : UnseenMsg)
    (post : List UnseenMsg) (h : m.sinkOk = false) :
    sinkCalls (drainTrace (pre ++ m :: post)) = (pre ++ m :: post).map UnseenMsg.uid ∧
    drainTrace (pre ++ m :: post) =
      drainTrace pre ++
        Ev.fetchMark m.uid :: Ev.sinkCall m.uid :: Ev.sinkRet m.uid false ::
          drainTrace post := by
  refine ⟨sinkCalls_drainTrace _, ?_⟩
  rw [drainTrace_append, drainTrace, h]

/-- Witness for C4: with the sink failing on message 2 of three, all of
1, 2, 3 still receive sink calls, in order. -/
theorem C4_witness :
    sinkCalls (drainTrace ([⟨1, true⟩] ++ ⟨2, false⟩ :: [⟨3, true⟩])) = [1, 2, 3] :=
  (C4_sink_failure_does_not_abort_drain [⟨1, true⟩] ⟨2, false⟩ [⟨3, true⟩] rfl).1

/-- C5: an exception of a kind named in neither the recognized-transient
tuple nor the authentication tuple is handled by the final `except
Exception` clause exactly like a recognized transient failure — a
60-second cooldown followed by a retry — and no exception kind, in the
connect-phase handlers or in the inner-loop handler, terminates the
supervisor loop. -/
theorem C5_unknown_failures_retry_never_terminate (k : ExcKind) :
    (isAuthKind k = false → isRecognizedTransient k = false →
      runExceptClauses k = runExceptClauses ExcKind.connectionError ∧
      runExceptClauses k = Dispatch.cooldownRetry 60) ∧
    runExceptClauses k ≠ Dispatch.terminate ∧
    innerLoopDispatch k ≠ Dispatch.terminate := by
  refine ⟨fun _ _ => ⟨?_, runExceptClauses_const k⟩, ?_, ?_⟩
  · rw [runExceptClauses_const, runExceptClauses_const]
  · rw [runExceptClauses_const]
    exact fun hc => Dispatch.noConfusion hc
  · exact fun hc => Dispatch.noConfusion hc

/-- Witness for C5: a `RuntimeError`, recognized by neither tuple, gets
the 60-second cooldown retry and does not terminate the loop. -/
theorem C5_witness :
    runExceptClauses (ExcKind.other "RuntimeError") = Dispatch.cooldownRetry 60 ∧
    runExceptClauses (ExcKind.other "RuntimeError") ≠ Dispatch.terminate :=
  ⟨((C5_unknown_failures_retry_never_terminate (ExcKind.other "RuntimeError")).1
      rfl rfl).2,
    (C5_unknown_failures_retry_never_terminate (ExcKind.other "RuntimeError")).2.1⟩

/-- C6: when the first connect attempt fails with an authentication
error and the second succeeds, the supervisor trace between the two
connect attempts contains exactly one cooldown sleep, of 60 seconds, and
the second attempt proceeds to a successful login and a running
session. -/
theorem C6_single_cooldown_between_auth_failure_and_success
    (evs : List IdleEvent) (rest : List Attempt) :
    cooldownsIn (betweenConnects (runTrace (Attempt.loginFail :: Attempt.ok evs :: rest)))
      = [60] ∧
    ∃ t, runTrace (Attempt.loginFail :: Attempt.ok evs :: rest) =
      Ev.connectAttempt :: Ev.cooldown 60 :: Ev.sessionClose ::
        Ev.connectAttempt :: Ev.loginOk :: t := by
  constructor
  · simp [runTrace, betweenConnects, cooldownsIn, isConnect,
      List.dropWhile_cons, List.takeWhile_cons, List.filterMap_cons]
  · exact ⟨_, rfl⟩

/-- C7: every idle wait is issued with the 45-second bound; a feed of
timed-out waits produces one bounded timeout outcome per wait, zero
fetches and zero sink calls, and leaves the loop running — a timeout is
not an error. -/
theorem C7_timeout_outcome_is_benign (evs : List IdleEvent)
    (h : evs.all isTimeoutEv = true) :
    idleWaitTimeoutSeconds = 45 ∧
    (runIdleLoop evs).1 = List.replicate evs.length (Ev.idleTimeout idleWaitTimeoutSeconds) ∧
    sinkCalls (runIdleLoop evs).1 = [] ∧
    markedUids (runIdleLoop evs).1 = [] ∧
    (runIdleLoop evs).2 = LoopExit.exhausted := by
  obtain ⟨h1, h2, h3, h4⟩ := runIdleLoop_all_timeouts evs h
  exact ⟨rfl, h1, h2, h3, h4⟩

/-- Witness for C7: three consecutive timed-out waits yield three
45-second timeout events, no sink calls, and a still-running loop. -/
theorem C7_witness :
    (runIdleLoop [IdleEvent.timeout, IdleEvent.timeout, IdleEvent.timeout]).1 =
      List.replicate 3 (Ev.idleTimeout 45) ∧
    sinkCalls (runIdleLoop [IdleEvent.timeout, IdleEvent.timeout, IdleEvent.timeout]).1 = [] ∧
    (runIdleLoop [IdleEvent.timeout, IdleEvent.timeout, IdleEvent.timeout]).2 =
      LoopExit.exhausted := by
  have h := C7_timeout_outcome_is_benign
    [IdleEvent.timeout, IdleEvent.timeout, IdleEvent.timeout] (by decide)
  exact ⟨h.2.1, h.2.2.1, h.2.2.2.2⟩

set_option maxRecDepth 10000 in
/-- C8 counterexample: a message with no plain-text part and 501
characters of HTML gets a body of 503 characters — the first 500 HTML
characters plus a three-character ellipsis marker — exceeding the
500-character cap the claim states. -/
theorem C8_counterexample :
    cex8.text = [] ∧ cex8.html ≠ [] ∧
    messageBody cex8 = some cex8Body ∧
    cex8Body.length = 503 ∧ 500 < cex8Body.length :=
  ⟨rfl, by decide, by decide, by decide, by decide⟩

/-- C8 (amended): the body is the whitespace-stripped plain-text part
when one is nonempty; only when the plain text is empty is the HTML
used, as an excerpt whose first 500 characters are the first 500
characters of the HTML, of total length at most 503 (a three-character
ellipsis marker is appended exactly when the HTML was cut), and equal to
the full HTML when it fits in 500 characters. -/
theorem C8_body_prefers_text_else_capped_html (msg : MailMessage) :
    (msg.text ≠ [] → messageBody msg = some (pyStrip msg.text)) ∧
    (msg.text = [] → msg.html ≠ [] →
      ∃ b, messageBody msg = some b ∧
        b.take 500 = msg.html.take 500 ∧
        b.length ≤ 503 ∧
        (msg.html.length ≤ 500 → b = msg.html)) := by
  constructor
  · intro ht
    simp [messageBody, ht]
  · intro ht hh
    refine ⟨htmlExcerpt msg.html, ?_, htmlExcerpt_take msg.html,
      htmlExcerpt_length msg.html, htmlExcerpt_of_short msg.html⟩
    simp [messageBody, ht, hh]

/-- Witness for C8: a message with text content gets the stripped text
as its body. -/
theorem C8_witness :
    messageBody msgTextEx = some (pyStrip msgTextEx.text) ∧
    pyStrip msgTextEx.text = ['h', 'i'] :=
  ⟨(C8_body_prefers_text_else_capped_html msgTextEx).1 (by decide), by decide⟩

/-- C9: the process exit code is nonzero exactly when the client
construction fails with the configuration error (the only Fatal
failure); a run ended by user cancellation, and every run in which the
recoverable failures were absorbed inside `run`, exits with 0. -/
theorem C9_nonzero_exit_iff_fatal (env : EnvMap) (r : RunEnd) :
    mainExit env r ≠ 0 ↔ ∃ e, clientInit env = Except.error e := by
  unfold mainExit
  cases h : clientInit env with
  | error e => simp
  | ok c => cases r <;> simp

end ImapWatch

namespace OutlookHook

/-- C10: a POST whose query string carries `validationToken` is answered
with a plain-text 200 response whose body is exactly the token, without
reading the request body; a POST without the token whose body parses as
JSON is answered with the object `{"status": "received"}` (after reading
the body). -/
theorem C10_validation_echo_and_notification_ack (req : WebRequest) :
    (∀ tok, queryGet req.query_params "validationToken" = some tok →
      outlook_webhook req =
        { response := WebResponse.plainText tok 200, bodyRead := false }) ∧
    (queryGet req.query_params "validationToken" = none →
      ∀ j, req.jsonBody = Except.ok j →
        outlook_webhook req =
          { response := WebResponse.jsonBody (JsonVal.obj [("status", JsonVal.str "received")])
            bodyRead := true }) := by
  constructor
  · intro tok h
    simp [outlook_webhook, h]
  · intro h j hj
    simp [outlook_webhook, h, hj]

/-- Witness for C10: the validation request is echoed without a body
read; the notification request is acknowledged. -/
theorem C10_witness :
    outlook_webhook reqTok =
      { response := WebResponse.plainText "abc123" 200, bodyRead := false } ∧
    outlook_webhook reqNotif =
      { response := WebResponse.jsonBody (JsonVal.obj [("status", JsonVal.str "received")])
        bodyRead := true } :=
  ⟨(C10_validation_echo_and_notification_ack reqTok).1 "abc123" (by rfl),
    (C10_validation_echo_and_notification_ack reqNotif).2 (by rfl)
      (JsonVal.obj [("value", JsonVal.arr [])]) (by rfl)⟩

end OutlookHook
